import Mathlib

/-!
Verification of the balance-controller application (`app_balance.c`) of the
bldc-surf firmware. The controller state and tick computations are shallowly
embedded over exact rational arithmetic: each Lean definition below mirrors a
C function or a contiguous block of the controller thread, with floats
rendered as `ℚ`, system times carried directly in milliseconds, and the
global mutable state threaded explicitly.
-/

namespace Balance

/-- The top-level controller state enum (`BalanceState` in `app_balance.c`). -/
inductive BalanceState
  | STARTUP
  | RUNNING
  | RUNNING_TILTBACK_DUTY
  | RUNNING_TILTBACK_HIGH_VOLTAGE
  | RUNNING_TILTBACK_LOW_VOLTAGE
  | FAULT_ANGLE_PITCH
  | FAULT_ANGLE_ROLL
  | FAULT_SWITCH_HALF
  | FAULT_SWITCH_FULL
  | FAULT_DUTY
  | FAULT_STARTUP
  | FAULT_REVERSE
  deriving DecidableEq, Repr

/-- `true` exactly on the `FAULT_*` constructors of `BalanceState`. -/
def BalanceState.isFault : BalanceState → Bool
  | .FAULT_ANGLE_PITCH => true
  | .FAULT_ANGLE_ROLL => true
  | .FAULT_SWITCH_HALF => true
  | .FAULT_SWITCH_FULL => true
  | .FAULT_DUTY => true
  | .FAULT_STARTUP => true
  | .FAULT_REVERSE => true
  | _ => false

/-- The setpoint adjustment mode enum (`SetpointAdjustmentType`). -/
inductive SetpointAdjustmentType
  | CENTERING
  | REVERSESTOP
  | TILTBACK_NONE
  | TILTBACK_DUTY
  | TILTBACK_HV
  | TILTBACK_LV
  deriving DecidableEq, Repr

/-- Numeric value of the C enum (CENTERING = 0, REVERSESTOP = 1, ...);
used for the `setpointAdjustmentType >= TILTBACK_NONE` comparisons. -/
def SetpointAdjustmentType.toNat : SetpointAdjustmentType → Nat
  | .CENTERING => 0
  | .REVERSESTOP => 1
  | .TILTBACK_NONE => 2
  | .TILTBACK_DUTY => 3
  | .TILTBACK_HV => 4
  | .TILTBACK_LV => 5

/-- The foot-switch state enum (`SwitchState`). -/
inductive SwitchState
  | OFF
  | HALF
  | ON
  deriving DecidableEq, Repr

/-- The `SIGN` macro of `utils.h`: `(((x) < 0) ? -1 : 1)`. -/
def SIGN (x : ℚ) : ℚ := if x < 0 then -1 else 1

/-! ### Output saturation (`balance_thread`, "Output to motor" block)

```c
if (pid_value > mc_current_max) {
    pid_value = mc_current_max - 3;
    ...
} else if (pid_value < mc_current_min) {
    pid_value = mc_current_min + 3;
    ...
} else if (current_limiting) { ... }
```
-/

/-- The motor-current saturation step applied to `pid_value` right before
`set_current`, as a function of the configured motor limits. -/
def saturate_pid_value (mc_current_min mc_current_max pid_value : ℚ) : ℚ :=
  if pid_value > mc_current_max then mc_current_max - 3
  else if pid_value < mc_current_min then mc_current_min + 3
  else pid_value

/-- The `current_limiting` flag resulting from the saturation step
(set when either clamp fires, cleared otherwise). -/
def saturate_limiting (mc_current_min mc_current_max pid_value : ℚ) : Bool :=
  if pid_value > mc_current_max then true
  else if pid_value < mc_current_min then true
  else false

/-! ### Torque-tilt measured acceleration (`apply_torquetilt`)

```c
float measured_acc = fmaxf(acceleration, -5);
measured_acc = fminf(acceleration, 5);
```
The second assignment overwrites the first, discarding the lower clamp. -/

/-- The value of `measured_acc` entering `acc_diff = expected_acc - measured_acc`
in `apply_torquetilt`, as computed by the two consecutive assignments. -/
def measured_acc (acceleration : ℚ) : ℚ :=
  let m := max acceleration (-5)
  let m' := min acceleration 5
  let _ := m
  m'

/-! ### Fault detection (`check_faults`)

Times are carried directly in milliseconds (`ST2MS` becomes the identity),
and the global timer variables, configuration fields and per-tick sensor
values consumed by `check_faults` are gathered into records. -/

/-- `reverse_tolerance`, fixed to `50000` by `app_balance_configure`. -/
def reverse_tolerance : ℚ := 50000

/-- Configuration fields consumed by `check_faults`. -/
structure FaultConf where
  fault_delay_switch_full : ℚ
  fault_delay_switch_half : ℚ
  fault_adc_half_erpm : ℚ
  fault_pitch : ℚ
  fault_delay_pitch : ℚ
  fault_roll : ℚ
  fault_delay_roll : ℚ
  fault_duty : ℚ
  fault_delay_duty : ℚ
  deriving DecidableEq, Repr

/-- The per-fault timer globals mutated by `check_faults`. -/
structure FaultTimers where
  fault_switch_timer : ℚ
  fault_switch_half_timer : ℚ
  fault_angle_pitch_timer : ℚ
  fault_angle_roll_timer : ℚ
  fault_duty_timer : ℚ
  reverse_timer : ℚ
  deriving DecidableEq, Repr

/-- The per-tick values read (but not written) by `check_faults`. -/
structure FaultIn where
  switch_state : SwitchState
  abs_erpm : ℚ
  pitch_angle : ℚ
  roll_angle : ℚ
  abs_duty_cycle : ℚ
  current_time : ℚ
  setpointAdjustmentType : SetpointAdjustmentType
  reverse_total_erpm : ℚ
  allow_high_speed_full_switch_faults : Bool
  deriving DecidableEq, Repr

/-- `check_faults`, duty block (the final check before `return false`). -/
def check_faults_duty (ignoreTimers : Bool) (conf : FaultConf) (inp : FaultIn)
    (state : BalanceState) (t : FaultTimers) : Bool × BalanceState × FaultTimers :=
  if inp.abs_duty_cycle > conf.fault_duty then
    if inp.current_time - t.fault_duty_timer > conf.fault_delay_duty ∨ ignoreTimers then
      (true, .FAULT_DUTY, t)
    else (false, state, t)
  else (false, state, { t with fault_duty_timer := inp.current_time })

/-- `check_faults`, roll-angle block. -/
def check_faults_roll (ignoreTimers : Bool) (conf : FaultConf) (inp : FaultIn)
    (state : BalanceState) (t : FaultTimers) : Bool × BalanceState × FaultTimers :=
  if |inp.roll_angle| > conf.fault_roll then
    if inp.current_time - t.fault_angle_roll_timer > conf.fault_delay_roll ∨ ignoreTimers then
      (true, .FAULT_ANGLE_ROLL, t)
    else check_faults_duty ignoreTimers conf inp state t
  else check_faults_duty ignoreTimers conf inp state { t with fault_angle_roll_timer := inp.current_time }

/-- `check_faults`, pitch-angle block. -/
def check_faults_pitch (ignoreTimers : Bool) (conf : FaultConf) (inp : FaultIn)
    (state : BalanceState) (t : FaultTimers) : Bool × BalanceState × FaultTimers :=
  if |inp.pitch_angle| > conf.fault_pitch then
    if inp.current_time - t.fault_angle_pitch_timer > conf.fault_delay_pitch ∨ ignoreTimers then
      (true, .FAULT_ANGLE_PITCH, t)
    else check_faults_roll ignoreTimers conf inp state t
  else check_faults_roll ignoreTimers conf inp state { t with fault_angle_pitch_timer := inp.current_time }

/-- `check_faults`, "switch partially open and stopped" block. -/
def check_faults_half (ignoreTimers : Bool) (conf : FaultConf) (inp : FaultIn)
    (state : BalanceState) (t : FaultTimers) : Bool × BalanceState × FaultTimers :=
  if (inp.switch_state = .HALF ∨ inp.switch_state = .OFF) ∧
      inp.abs_erpm < conf.fault_adc_half_erpm then
    if inp.current_time - t.fault_switch_half_timer > conf.fault_delay_switch_half ∨ ignoreTimers then
      (true, .FAULT_SWITCH_HALF, t)
    else check_faults_pitch ignoreTimers conf inp state t
  else check_faults_pitch ignoreTimers conf inp state { t with fault_switch_half_timer := inp.current_time }

/-- `check_faults`, reverse-stop block. Note the cumulative-erpm test compares
the *signed* `reverse_total_erpm` against `reverse_tolerance * 3` (no `fabsf`). -/
def check_faults_reverse (ignoreTimers : Bool) (conf : FaultConf) (inp : FaultIn)
    (state : BalanceState) (t : FaultTimers) : Bool × BalanceState × FaultTimers :=
  if inp.setpointAdjustmentType = .REVERSESTOP then
    if inp.switch_state = .OFF then (true, .FAULT_SWITCH_FULL, t)
    else if |inp.pitch_angle| > 15 then (true, .FAULT_REVERSE, t)
    else if |inp.pitch_angle| > 10 ∧ inp.current_time - t.reverse_timer > 500 then
      (true, .FAULT_REVERSE, t)
    else if |inp.pitch_angle| > 5 ∧ inp.current_time - t.reverse_timer > 1000 then
      (true, .FAULT_REVERSE, t)
    else if inp.reverse_total_erpm > reverse_tolerance * 3 then (true, .FAULT_REVERSE, t)
    else if |inp.pitch_angle| < 5 then
      check_faults_half ignoreTimers conf inp state { t with reverse_timer := inp.current_time }
    else check_faults_half ignoreTimers conf inp state t
  else check_faults_half ignoreTimers conf inp state t

/-- `check_faults(ignoreTimers)`: returns the C function's boolean result
together with the resulting `state` and fault timers. The entry block handles
the fully-open switch; with the high-speed-fault flag disabled and
`abs_erpm > 3000` the switch fault timer is re-armed instead of faulting. -/
def check_faults (ignoreTimers : Bool) (conf : FaultConf) (inp : FaultIn)
    (state : BalanceState) (t : FaultTimers) : Bool × BalanceState × FaultTimers :=
  if inp.switch_state = .OFF then
    if inp.current_time - t.fault_switch_timer > conf.fault_delay_switch_full ∨ ignoreTimers then
      (true, .FAULT_SWITCH_FULL, t)
    else if inp.abs_erpm < conf.fault_adc_half_erpm * 4 ∧
        inp.current_time - t.fault_switch_timer > conf.fault_delay_switch_half then
      (true, .FAULT_SWITCH_FULL, t)
    else if inp.abs_erpm < conf.fault_adc_half_erpm ∧ |inp.pitch_angle| > 15 then
      (true, .FAULT_SWITCH_FULL, t)
    else if inp.abs_erpm > 3000 ∧ inp.allow_high_speed_full_switch_faults = false then
      check_faults_reverse ignoreTimers conf inp state { t with fault_switch_timer := inp.current_time }
    else check_faults_reverse ignoreTimers conf inp state t
  else check_faults_reverse ignoreTimers conf inp state { t with fault_switch_timer := inp.current_time }

/-! ### Setpoint shaper (`calculate_setpoint_target`,
`get_setpoint_adjustment_step_size`, `calculate_setpoint_interpolated`) -/

/-- Configuration fields consumed by `calculate_setpoint_target`
(`mc_max_temp_fet`, `use_soft_start` and `use_reverse_stop` are the values
derived in `app_balance_configure`). -/
structure SetpointConf where
  tiltback_duty : ℚ
  tiltback_duty_angle : ℚ
  tiltback_hv : ℚ
  tiltback_hv_angle : ℚ
  tiltback_lv : ℚ
  tiltback_lv_angle : ℚ
  mc_max_temp_fet : ℚ
  use_soft_start : Bool
  use_reverse_stop : Bool
  deriving DecidableEq, Repr

/-- Per-tick sensor values read by `calculate_setpoint_target`
(`v_in` is `GET_INPUT_VOLTAGE()`, `fet_temp` is
`mc_interface_temp_fet_filtered()`). -/
structure SetpointIn where
  erpm : ℚ
  abs_duty_cycle : ℚ
  v_in : ℚ
  fet_temp : ℚ
  current_time : ℚ
  deriving DecidableEq, Repr

/-- The globals read or written by `calculate_setpoint_target`.
`fault_switch_timer` is read by the high-voltage branch (the code consults
this switch-fault timer — not `tb_highvoltage_timer`, which is written at the
top of the function but never read anywhere). -/
structure SetpointState where
  setpointAdjustmentType : SetpointAdjustmentType
  setpoint_target : ℚ
  setpoint_target_interpolated : ℚ
  state : BalanceState
  reverse_total_erpm : ℚ
  integral : ℚ
  softstart_timer : ℚ
  fault_switch_timer : ℚ
  tb_highvoltage_timer : ℚ
  reverse_timer : ℚ
  deriving DecidableEq, Repr

/-- `calculate_setpoint_target`: per-tick selection of the adjustment mode,
discrete setpoint target and top-level running state. `START_GRACE_PERIOD_MS`
is 100. -/
def calculate_setpoint_target (c : SetpointConf) (inp : SetpointIn)
    (s : SetpointState) : SetpointState :=
  let s := if inp.v_in < c.tiltback_hv then
      { s with tb_highvoltage_timer := inp.current_time } else s
  if s.setpointAdjustmentType = .CENTERING then
    if s.setpoint_target_interpolated ≠ s.setpoint_target then
      { s with state := .RUNNING, softstart_timer := inp.current_time }
    else if inp.current_time - s.softstart_timer > 100 then
      { s with setpointAdjustmentType := .TILTBACK_NONE }
    else if c.use_soft_start = false then
      { s with setpointAdjustmentType := .TILTBACK_NONE }
    else s
  else if s.setpointAdjustmentType = .REVERSESTOP then
    let s := { s with reverse_total_erpm := s.reverse_total_erpm + inp.erpm }
    if |s.reverse_total_erpm| > reverse_tolerance then
      { s with setpoint_target := 10 * (|s.reverse_total_erpm| - reverse_tolerance) / 50000 }
    else if |s.reverse_total_erpm| ≤ reverse_tolerance / 2 ∧ inp.erpm ≥ 0 then
      { s with setpointAdjustmentType := .TILTBACK_NONE, reverse_total_erpm := 0,
               setpoint_target := 0, integral := 0 }
    else s
  else if inp.abs_duty_cycle > c.tiltback_duty then
    { s with setpoint_target := if inp.erpm > 0 then c.tiltback_duty_angle
               else -c.tiltback_duty_angle,
             setpointAdjustmentType := .TILTBACK_DUTY, state := .RUNNING_TILTBACK_DUTY }
  else if inp.v_in > c.tiltback_hv then
    if inp.current_time - s.fault_switch_timer > 500 ∨ inp.v_in > c.tiltback_hv + 1 then
      { s with setpoint_target := if inp.erpm > 0 then c.tiltback_hv_angle
                 else -c.tiltback_hv_angle,
               setpointAdjustmentType := .TILTBACK_HV,
               state := .RUNNING_TILTBACK_HIGH_VOLTAGE }
    else
      { s with setpointAdjustmentType := .TILTBACK_NONE, state := .RUNNING }
  else if inp.v_in < c.tiltback_lv then
    { s with setpoint_target := if inp.erpm > 0 then c.tiltback_lv_angle
               else -c.tiltback_lv_angle,
             setpointAdjustmentType := .TILTBACK_LV,
             state := .RUNNING_TILTBACK_LOW_VOLTAGE }
  else if inp.fet_temp > c.mc_max_temp_fet then
    if inp.fet_temp > c.mc_max_temp_fet + 1 then
      { s with setpoint_target := if inp.erpm > 0 then c.tiltback_lv_angle
                 else -c.tiltback_lv_angle,
               setpointAdjustmentType := .TILTBACK_HV,
               state := .RUNNING_TILTBACK_LOW_VOLTAGE }
    else
      { s with setpointAdjustmentType := .TILTBACK_NONE, state := .RUNNING }
  else
    let s := if c.use_reverse_stop ∧ inp.erpm < 0 then
        { s with setpointAdjustmentType := .REVERSESTOP,
                 reverse_timer := inp.current_time, reverse_total_erpm := 0 }
      else { s with setpointAdjustmentType := .TILTBACK_NONE }
    { s with setpoint_target := 0, state := .RUNNING }

/-- The per-mode step sizes derived in `app_balance_configure`
(each is the configured speed divided by the loop rate;
`reverse_stop_step_size = 100 / hertz`). -/
structure StepConf where
  startup_step_size : ℚ
  tiltback_duty_step_size : ℚ
  tiltback_hv_step_size : ℚ
  tiltback_lv_step_size : ℚ
  tiltback_return_step_size : ℚ
  reverse_stop_step_size : ℚ
  deriving DecidableEq, Repr

/-- `get_setpoint_adjustment_step_size`: the per-tick step for the current
adjustment mode. -/
def get_setpoint_adjustment_step_size (c : StepConf) :
    SetpointAdjustmentType → ℚ
  | .CENTERING => c.startup_step_size
  | .TILTBACK_DUTY => c.tiltback_duty_step_size
  | .TILTBACK_HV => c.tiltback_hv_step_size
  | .TILTBACK_LV => c.tiltback_lv_step_size
  | .TILTBACK_NONE => c.tiltback_return_step_size
  | .REVERSESTOP => c.reverse_stop_step_size

/-- `calculate_setpoint_interpolated`: the rate limiter advancing
`setpoint_target_interpolated` toward `setpoint_target` by at most `step`. -/
def calculate_setpoint_interpolated (step setpoint_target setpoint_target_interpolated : ℚ) : ℚ :=
  if setpoint_target_interpolated ≠ setpoint_target then
    if |setpoint_target - setpoint_target_interpolated| < step then
      setpoint_target
    else if setpoint_target - setpoint_target_interpolated > 0 then
      setpoint_target_interpolated + step
    else
      setpoint_target_interpolated - step
  else setpoint_target_interpolated

/-! ### PID gain scheduling (`balance_thread`, gain-target and smoothing block)

`app_balance_configure` derives the gain caps
(`kp_acc = fminf(conf.kp, 10)` etc.); each running tick then computes gain
targets from the torque-tilt multipliers and smooths the applied gains
toward them (`max_di_mult = 1.7`). -/

/-- `kp_acc` as derived in `app_balance_configure`: `fminf(balance_conf.kp, 10)`. -/
def kp_acc_of (conf_kp : ℚ) : ℚ := min conf_kp 10

/-- `ki_acc` as derived in `app_balance_configure`: `fminf(balance_conf.ki, 0.01)`. -/
def ki_acc_of (conf_ki : ℚ) : ℚ := min conf_ki 0.01

/-- `kd_acc` as derived in `app_balance_configure`: `fminf(balance_conf.kd, 1500)`. -/
def kd_acc_of (conf_kd : ℚ) : ℚ := min conf_kd 1500

/-- The currently-applied PID gains (globals `kp`, `ki`, `kd`). -/
structure Gains where
  kp : ℚ
  ki : ℚ
  kd : ℚ
  deriving DecidableEq, Repr

/-- The final `p_multiplier` of the gain-target block: raw multiplier
`|torquetilt_interpolated| / 6 * tt_pid_intensity` when
`|torquetilt_interpolated| > 2`, shifted and clamped by
`fminf(1 + p_multiplier, 2)`; `1` otherwise. -/
def p_multiplier (torquetilt_interpolated tt_pid_intensity : ℚ) : ℚ :=
  if |torquetilt_interpolated| > 2 then
    min (1 + |torquetilt_interpolated| / 6 * tt_pid_intensity) 2
  else 1

/-- The `di_multiplier` of the gain-target block:
`fminf(1 + p_multiplier / 2, max_di_mult)` with `max_di_mult = 1.7`. -/
def di_multiplier (torquetilt_interpolated tt_pid_intensity : ℚ) : ℚ :=
  if |torquetilt_interpolated| > 2 then
    min (1 + |torquetilt_interpolated| / 6 * tt_pid_intensity / 2) 1.7
  else 1

/-- `kd_target`: `kd_acc`, reduced by `di_multiplier / max_di_mult` when the
proportional error is beyond `center_boost_angle + 0.5`. -/
def kd_target_of (kd_acc torquetilt_interpolated tt_pid_intensity abs_prop
    center_boost_angle : ℚ) : ℚ :=
  if abs_prop > center_boost_angle + 0.5 then
    kd_acc * di_multiplier torquetilt_interpolated tt_pid_intensity / 1.7
  else kd_acc

/-- The per-tick gain-smoothing block of `balance_thread` (the code between
the gain-target computation and the PID assembly): stiffen fast / loosen
slow in the tiltback modes, slow everything in `CENTERING`, and override to
`kp_target = 2`, `kd_target = 400`, `ki = 0`, `integral = 0` in
`REVERSESTOP`. Returns the new applied gains and the (possibly cleared)
integral. -/
def gain_update (mode : SetpointAdjustmentType)
    (kp_acc ki_acc kd_acc tt_pid_intensity : ℚ)
    (torquetilt_interpolated abs_prop center_boost_angle : ℚ)
    (g : Gains) (integral : ℚ) : Gains × ℚ :=
  let kp_target := kp_acc * p_multiplier torquetilt_interpolated tt_pid_intensity
  let ki_target := ki_acc * di_multiplier torquetilt_interpolated tt_pid_intensity
  let kd_target := kd_target_of kd_acc torquetilt_interpolated tt_pid_intensity
    abs_prop center_boost_angle
  if 2 ≤ mode.toNat then
    if kp_target > g.kp then
      ({ kp := g.kp * 0.98 + kp_target * 0.02,
         ki := g.ki * 0.98 + ki_target * 0.02,
         kd := g.kd * 0.98 + kd_target * 0.02 }, integral)
    else
      ({ kp := g.kp * 0.998 + kp_target * 0.002,
         ki := g.ki * 0.998 + ki_target * 0.002,
         kd := g.kd * 0.98 + kd_target * 0.02 }, integral)
  else if mode = .CENTERING then
    ({ kp := g.kp * 0.995 + kp_target * 0.005,
       ki := g.ki * 0.995 + ki_target * 0.005,
       kd := g.kd * 0.995 + kd_target * 0.005 }, integral)
  else if mode = .REVERSESTOP then
    ({ kp := g.kp * 0.99 + 2 * 0.01,
       ki := 0,
       kd := g.kd * 0.99 + 400 * 0.01 }, 0)
  else (g, integral)

/-- A benign fault configuration: generous thresholds and delays. -/
def confA : FaultConf :=
  { fault_delay_switch_full := 200, fault_delay_switch_half := 100,
    fault_adc_half_erpm := 1000, fault_pitch := 45, fault_delay_pitch := 500,
    fault_roll := 45, fault_delay_roll := 500, fault_duty := 9/10,
    fault_delay_duty := 100 }

/-- All fault timers at zero. -/
def timersA : FaultTimers :=
  { fault_switch_timer := 0, fault_switch_half_timer := 0,
    fault_angle_pitch_timer := 0, fault_angle_roll_timer := 0,
    fault_duty_timer := 0, reverse_timer := 0 }

/-- A reverse-stop tick with the given accumulated reverse erpm: switch on,
level board, no duty, time 0. -/
def revIn (rev : ℚ) : FaultIn :=
  { switch_state := .ON, abs_erpm := 600, pitch_angle := 0, roll_angle := 0,
    abs_duty_cycle := 0, current_time := 0,
    setpointAdjustmentType := .REVERSESTOP, reverse_total_erpm := rev,
    allow_high_speed_full_switch_faults := true }

/-- The state discipline of a `check_faults` block result: returning `true`
means a `FAULT_*` value was assigned, returning `false` means the incoming
`state` is passed through untouched. -/
def StateDisc (state : BalanceState) (r : Bool × BalanceState × FaultTimers) : Prop :=
  (r.1 = true → r.2.1.isFault = true) ∧ (r.1 = false → r.2.1 = state)

/-- Concrete data for the C6 counterexample: a tick on which the duty
tiltback engages. -/
def c6spc : SetpointConf :=
  { tiltback_duty := 8/10, tiltback_duty_angle := 5, tiltback_hv := 100,
    tiltback_hv_angle := 8, tiltback_lv := 40, tiltback_lv_angle := 8,
    mc_max_temp_fet := 80, use_soft_start := true, use_reverse_stop := false }

/-- C6 counterexample input: `duty = 0.9` above the `0.8` threshold. -/
def c6inp : SetpointIn :=
  { erpm := 1000, abs_duty_cycle := 9/10, v_in := 50, fet_temp := 20,
    current_time := 1000 }

/-- C6 counterexample previous state: mode `TILTBACK_NONE`, interpolated
setpoint at 0. -/
def c6st : SetpointState :=
  { setpointAdjustmentType := .TILTBACK_NONE, setpoint_target := 0,
    setpoint_target_interpolated := 0, state := .RUNNING,
    reverse_total_erpm := 0, integral := 0, softstart_timer := 0,
    fault_switch_timer := 1000, tb_highvoltage_timer := 0, reverse_timer := 0 }

/-- C6 counterexample step sizes: a slow `TILTBACK_NONE` return step
(`1/1000` per tick) and a fast duty step (`5` per tick). -/
def c6steps : StepConf :=
  { startup_step_size := 5/1000, tiltback_duty_step_size := 5,
    tiltback_hv_step_size := 5/1000, tiltback_lv_step_size := 5/1000,
    tiltback_return_step_size := 1/1000, reverse_stop_step_size := 1/10 }

/-- Iterated `check_faults` calls along a run of ticks: entry `n+1` holds the
result of the `n`-th call (made with input `inp n` on the state and timers
produced by the calls so far); entry `0` is the pre-run state with a `false`
result. This models the per-tick fault evaluation of the running states of
`balance_thread`. -/
def check_faults_trace (ig : Bool) (conf : FaultConf) (inp : ℕ → FaultIn)
    (st0 : BalanceState) (t0 : FaultTimers) : ℕ → Bool × BalanceState × FaultTimers
  | 0 => (false, st0, t0)
  | n + 1 =>
    let p := check_faults_trace ig conf inp st0 t0 n
    check_faults ig conf (inp n) p.2.1 p.2.2

/-- Input for tick `n` of the C7 scenario: switch Off at `erpm = 5000`,
level board, no duty, ticks 100 ms apart, high-speed switch faults
disallowed. -/
def c7inp (n : ℕ) : FaultIn :=
  { switch_state := .OFF, abs_erpm := 5000, pitch_angle := 0, roll_angle := 0,
    abs_duty_cycle := 0, current_time := 100 * n,
    setpointAdjustmentType := .TILTBACK_NONE, reverse_total_erpm := 0,
    allow_high_speed_full_switch_faults := false }

/-! ### Cutback detector division safety (`balance_thread` roll aggregation
and the `apply_turntilt` cutback guard) -/

/-- `roll_aggregate_threshold`, fixed to `5000` by `app_balance_configure`. -/
def roll_aggregate_threshold : ℚ := 5000

/-- The per-tick roll aggregation of `balance_thread` ("Cutbacks:" block):
accumulate while `|roll| > 8`, otherwise reset to 0. This runs earlier in the
same tick as `apply_turntilt`. -/
def roll_aggregate_update (roll_aggregate roll_angle : ℚ) : ℚ :=
  if |roll_angle| > 8 then roll_aggregate + roll_angle else 0

/-- The first three conjuncts of the cutback condition in `apply_turntilt`;
C's `&&` short-circuits, so the fourth conjunct
`yaw_change * 100 / roll_angle < 1` is evaluated only when this guard holds
(`abs_yaw_scaled` is `abs_yaw_change * 100`). -/
def cutback_division_guard (yaw_change roll_angle roll_aggregate abs_yaw_scaled : ℚ) : Prop :=
  SIGN yaw_change = SIGN roll_angle ∧
  |roll_aggregate| > roll_aggregate_threshold ∧
  abs_yaw_scaled > 5

/-! ### Acceleration moving average (`balance_thread` ring-buffer block and
its `reset_vars` initialization; `ACCEL_ARRAY_SIZE = 40`)

```c
accelavg += (acceleration_raw - accelhist[accelidx]) / ACCEL_ARRAY_SIZE;
accelhist[accelidx] = acceleration_raw;
accelidx++;
if (accelidx == ACCEL_ARRAY_SIZE) accelidx = 0;
```
-/

/-- The acceleration ring-buffer globals: `accelhist[40]`, `accelidx`,
`accelavg`. -/
structure AccelState where
  accelhist : List ℚ
  accelidx : ℕ
  accelavg : ℚ
  deriving DecidableEq, Repr

/-- The ring state established by `reset_vars`: forty zero entries, index 0,
average 0. -/
def accel_reset : AccelState :=
  { accelhist := List.replicate 40 0, accelidx := 0, accelavg := 0 }

/-- One tick of the moving-average maintenance in `balance_thread`: the
average is advanced by `(new - old) / 40`, the ring slot is overwritten, and
the index wraps at 40. -/
def accel_tick (s : AccelState) (acceleration_raw : ℚ) : AccelState :=
  { accelhist := s.accelhist.set s.accelidx acceleration_raw,
    accelidx := if s.accelidx + 1 = 40 then 0 else s.accelidx + 1,
    accelavg := s.accelavg + (acceleration_raw - s.accelhist.getD s.accelidx 0) / 40 }

/-- The ring state after processing the samples `xs` in order, starting from
the freshly reset state. -/
def accel_run (xs : List ℚ) : AccelState := xs.foldl accel_tick accel_reset

/-- The sample stream prefixed by the forty zeros of the reset ring, so that
"the last 40 samples, missing samples counting as 0" is exactly
`(padded xs).drop xs.length` (always 40 entries). -/
def padded (xs : List ℚ) : List ℚ := List.replicate 40 0 ++ xs

end Balance

open Balance

/-- C1: the claim asserts `saturate_pid_value` lands in
`[mc_current_min + 3, mc_current_max - 3]` for every pre-saturation value.
It does not: a pre-saturation `pid_value` of `9` with limits `[-10, 10]` is
inside `[-10, 10]`, is left untouched, and exceeds `10 - 3 = 7`. -/
theorem C1_counterexample :
    saturate_pid_value (-10) 10 9 = 9 ∧ ¬ (saturate_pid_value (-10) 10 9 ≤ 10 - 3) := by
  constructor
  · rfl
  · intro h
    norm_num [saturate_pid_value] at h

/-- C1 (amended): provided `mc_current_min + 3 ≤ mc_current_max`, the
saturation step keeps `pid_value` in `[mc_current_min, mc_current_max]`;
whenever a clamp actually fires the result is exactly `mc_current_max - 3`
(upper) or `mc_current_min + 3` (lower), and in-range values pass unchanged. -/
theorem C1_saturation_bounds (lo hi v : ℚ) (h : lo + 3 ≤ hi) :
    lo ≤ saturate_pid_value lo hi v ∧ saturate_pid_value lo hi v ≤ hi ∧
      (v > hi → saturate_pid_value lo hi v = hi - 3) ∧
      (v < lo → saturate_pid_value lo hi v = lo + 3) ∧
      (lo ≤ v → v ≤ hi → saturate_pid_value lo hi v = v) := by
  unfold saturate_pid_value
  split_ifs with h1 h2 <;>
    refine ⟨by linarith, by linarith, ?_, ?_, ?_⟩ <;> intros <;> first | rfl | linarith

/-- Witness for C1_saturation_bounds at `lo = -10`, `hi = 10`, `v = 20`. -/
theorem C1_saturation_bounds_witness :
    (-10 : ℚ) ≤ saturate_pid_value (-10) 10 20 ∧ saturate_pid_value (-10) 10 20 ≤ 10 := by
  have h := C1_saturation_bounds (-10) 10 20 (by norm_num)
  exact ⟨h.1, h.2.1⟩


/-- C2: the claim says `check_faults` raises `FaultReverse` as soon as
`|reverse_total_erpm| > 3 · reverse_tolerance`, for either sign — in
particular when riding backwards the (negative) accumulated erpm passing
150 000 in magnitude must fault. The code compares the *signed* value
(`reverse_total_erpm > reverse_tolerance * 3`, no `fabsf`), so at
`reverse_total_erpm = -150001` — which satisfies the claim's magnitude
condition — no fault is raised and the state is left at `RUNNING`, while the
mirror-image positive accumulation `+150001` does fault. This contradicts the
spec's reverse-stop scenario (riding backwards accumulates *negative* erpm),
and the enclosing function applies `fabsf` to `reverse_total_erpm` everywhere
else: the missing `fabsf` is a slip in the code. -/
theorem C2_signed_reverse_erpm_no_fault :
    (|(-150001 : ℚ)| > 3 * reverse_tolerance) ∧
    (check_faults false confA (revIn (-150001)) .RUNNING timersA).1 = false ∧
    (check_faults false confA (revIn (-150001)) .RUNNING timersA).2.1 = .RUNNING ∧
    (check_faults false confA (revIn 150001) .RUNNING timersA).1 = true ∧
    (check_faults false confA (revIn 150001) .RUNNING timersA).2.1 = .FAULT_REVERSE := by
  refine ⟨by norm_num [reverse_tolerance], ?_, ?_, ?_, ?_⟩ <;>
    · norm_num [check_faults, check_faults_reverse, check_faults_half, check_faults_pitch,
        check_faults_roll, check_faults_duty, confA, revIn, timersA, reverse_tolerance]
      simp


theorem stateDisc_duty (ig : Bool) (conf : FaultConf) (inp : FaultIn)
    (state : BalanceState) (t : FaultTimers) :
    StateDisc state (check_faults_duty ig conf inp state t) := by
  unfold check_faults_duty StateDisc
  split_ifs <;> simp [BalanceState.isFault]

theorem stateDisc_roll (ig : Bool) (conf : FaultConf) (inp : FaultIn)
    (state : BalanceState) (t : FaultTimers) :
    StateDisc state (check_faults_roll ig conf inp state t) := by
  unfold check_faults_roll
  split_ifs
  · exact ⟨fun _ => rfl, by simp⟩
  · exact stateDisc_duty ..
  · exact stateDisc_duty ..

theorem stateDisc_pitch (ig : Bool) (conf : FaultConf) (inp : FaultIn)
    (state : BalanceState) (t : FaultTimers) :
    StateDisc state (check_faults_pitch ig conf inp state t) := by
  unfold check_faults_pitch
  split_ifs
  · exact ⟨fun _ => rfl, by simp⟩
  · exact stateDisc_roll ..
  · exact stateDisc_roll ..

theorem stateDisc_half (ig : Bool) (conf : FaultConf) (inp : FaultIn)
    (state : BalanceState) (t : FaultTimers) :
    StateDisc state (check_faults_half ig conf inp state t) := by
  unfold check_faults_half
  split_ifs
  · exact ⟨fun _ => rfl, by simp⟩
  · exact stateDisc_pitch ..
  · exact stateDisc_pitch ..

theorem stateDisc_reverse (ig : Bool) (conf : FaultConf) (inp : FaultIn)
    (state : BalanceState) (t : FaultTimers) :
    StateDisc state (check_faults_reverse ig conf inp state t) := by
  unfold check_faults_reverse
  split_ifs <;> first
    | exact ⟨fun _ => rfl, by simp⟩
    | exact stateDisc_half ..

/-- C10: `check_faults` returns `true` exactly when it has assigned a
`FAULT_*` value to `state`; when it returns `false` the top-level state is
returned unchanged — only the per-fault timers may differ. -/
theorem C10_check_faults_state_discipline (ignoreTimers : Bool) (conf : FaultConf)
    (inp : FaultIn) (state : BalanceState) (t : FaultTimers) :
    StateDisc state (check_faults ignoreTimers conf inp state t) := by
  unfold check_faults
  split_ifs <;> first
    | exact ⟨fun _ => rfl, by simp⟩
    | exact stateDisc_reverse ..

/-- Witness for C10 at a concrete faulting call and a concrete clean call. -/
theorem C10_check_faults_state_discipline_witness :
    ((check_faults false confA (revIn 150001) .RUNNING timersA).2.1).isFault = true ∧
    (check_faults false confA (revIn 0) .RUNNING timersA).2.1 = .RUNNING := by
  constructor
  · refine (C10_check_faults_state_discipline false confA (revIn 150001) .RUNNING timersA).1 ?_
    norm_num [check_faults, check_faults_reverse, check_faults_half, check_faults_pitch,
      check_faults_roll, check_faults_duty, confA, revIn, timersA, reverse_tolerance]
    simp
  · refine (C10_check_faults_state_discipline false confA (revIn 0) .RUNNING timersA).2 ?_
    norm_num [check_faults, check_faults_reverse, check_faults_half, check_faults_pitch,
      check_faults_roll, check_faults_duty, confA, revIn, timersA, reverse_tolerance]
    simp

/-- C5: the claim asserts `measured_acc = max (-5) (min acceleration 5)`.
The code computes `fmaxf(acceleration, -5)` but immediately overwrites it with
`fminf(acceleration, 5)`, so at `acceleration = -10` the code yields `-10`
while the claimed two-sided clip yields `-5`. (The upper clip does survive:
`measured_acc 10 = 5`.) -/
theorem C5_clip_lost :
    measured_acc (-10) = -10 ∧ max (-5 : ℚ) (min (-10) 5) = -5 ∧
      measured_acc (-10) ≠ max (-5 : ℚ) (min (-10) 5) ∧ measured_acc 10 = 5 := by
  refine ⟨rfl, by norm_num, ?_, by norm_num [measured_acc]⟩
  norm_num [measured_acc]

/-- C3: the claim says a sustained overvoltage in `(tiltback_hv, tiltback_hv+1]`
switches the mode to `TiltbackHV` after 500 ms. The code's 500 ms test reads
`fault_switch_timer` — the switch-fault timer, which `check_faults` re-arms to
`current_time` on every tick on which the foot switch is not Off — instead of
`tb_highvoltage_timer` (which `calculate_setpoint_target` writes but nothing
ever reads). Hence with the switch held On (`fault_switch_timer =
current_time`) the mode stays `TILTBACK_NONE` at *every* tick, for an
arbitrarily long sustained overvoltage in that band; only the immediate
branch `v_in > tiltback_hv + 1` behaves as specified. -/
theorem C3_hv_uses_switch_timer (c : SetpointConf) (inp : SetpointIn) (s : SetpointState)
    (h1 : s.setpointAdjustmentType = .TILTBACK_NONE)
    (h2 : ¬ (inp.abs_duty_cycle > c.tiltback_duty))
    (h3 : c.tiltback_hv < inp.v_in)
    (h5 : s.fault_switch_timer = inp.current_time) :
    (inp.v_in ≤ c.tiltback_hv + 1 →
      (calculate_setpoint_target c inp s).setpointAdjustmentType = .TILTBACK_NONE ∧
      (calculate_setpoint_target c inp s).state = .RUNNING) ∧
    (inp.v_in > c.tiltback_hv + 1 →
      (calculate_setpoint_target c inp s).setpointAdjustmentType = .TILTBACK_HV ∧
      (calculate_setpoint_target c inp s).state = .RUNNING_TILTBACK_HIGH_VOLTAGE) := by
  have hv' : ¬ (inp.v_in < c.tiltback_hv) := not_lt.mpr (le_of_lt h3)
  constructor <;> intro h6
  · have hcond : ¬ (inp.current_time - s.fault_switch_timer > 500 ∨
        inp.v_in > c.tiltback_hv + 1) := by
      push_neg
      exact ⟨by rw [h5]; norm_num, h6⟩
    simp [calculate_setpoint_target, hv', h1, h2, h3, hcond]
  · simp [calculate_setpoint_target, hv', h1, h2, h3, h6]

/-- Witness for C3 at a concrete overvoltage input: `tiltback_hv = 50`,
`v_in = 50.5`, switch On at time 100000 ms. -/
theorem C3_hv_uses_switch_timer_witness :
    (calculate_setpoint_target
        { tiltback_duty := 8/10, tiltback_duty_angle := 5, tiltback_hv := 50,
          tiltback_hv_angle := 8, tiltback_lv := 40, tiltback_lv_angle := 8,
          mc_max_temp_fet := 80, use_soft_start := true, use_reverse_stop := false }
        { erpm := 1000, abs_duty_cycle := 1/2, v_in := 50 + 1/2, fet_temp := 20,
          current_time := 100000 }
        { setpointAdjustmentType := .TILTBACK_NONE, setpoint_target := 0,
          setpoint_target_interpolated := 0, state := .RUNNING,
          reverse_total_erpm := 0, integral := 0, softstart_timer := 0,
          fault_switch_timer := 100000, tb_highvoltage_timer := 0,
          reverse_timer := 0 }).setpointAdjustmentType = .TILTBACK_NONE := by
  refine ((C3_hv_uses_switch_timer _ _ _ rfl (by norm_num) (by norm_num) rfl).1
    (by norm_num)).1


/-- C6: the claim bounds the per-tick interpolated-setpoint move by the step
size of the *previous* tick's mode. But `calculate_setpoint_target` (which
may change the mode) runs before `calculate_setpoint_interpolated` in the
same tick, so the rate limiter uses the *new* mode's step. On a tick where
the mode changes from `TILTBACK_NONE` (step `1/1000`) to `TILTBACK_DUTY`
(step `5`), the interpolated setpoint moves by `5`, exceeding the previous
mode's step size. -/
theorem C6_counterexample :
    c6st.setpointAdjustmentType = .TILTBACK_NONE ∧
    (calculate_setpoint_target c6spc c6inp c6st).setpointAdjustmentType = .TILTBACK_DUTY ∧
    ¬ (|calculate_setpoint_interpolated
          (get_setpoint_adjustment_step_size c6steps
            (calculate_setpoint_target c6spc c6inp c6st).setpointAdjustmentType)
          (calculate_setpoint_target c6spc c6inp c6st).setpoint_target
          c6st.setpoint_target_interpolated
        - c6st.setpoint_target_interpolated|
        ≤ get_setpoint_adjustment_step_size c6steps c6st.setpointAdjustmentType) := by
  refine ⟨rfl, ?_, ?_⟩
  · norm_num [calculate_setpoint_target, c6spc, c6inp, c6st, reverse_tolerance]
    simp
  · norm_num [calculate_setpoint_target, calculate_setpoint_interpolated,
      get_setpoint_adjustment_step_size, c6spc, c6inp, c6st, c6steps, reverse_tolerance]
    simp
    norm_num

/-- C6 (amended): the per-tick move of `setpoint_target_interpolated` is
bounded by the step size of the mode *selected by the same tick's*
`calculate_setpoint_target` (which runs first), whenever that step size is
nonnegative: `|interp(t) − interp(t−1)| ≤ step_size(mode(t))`. -/
theorem C6_rate_limit_current_mode (sc : StepConf) (mode : SetpointAdjustmentType)
    (target interp : ℚ) (h : 0 ≤ get_setpoint_adjustment_step_size sc mode) :
    |calculate_setpoint_interpolated (get_setpoint_adjustment_step_size sc mode)
        target interp - interp|
      ≤ get_setpoint_adjustment_step_size sc mode := by
  unfold calculate_setpoint_interpolated
  split_ifs with h1 h2 h3
  · exact le_of_lt h2
  · rw [add_sub_cancel_left, abs_of_nonneg h]
  · rw [sub_sub_cancel_left, abs_neg, abs_of_nonneg h]
  · simpa using h

/-- Witness for C6_rate_limit_current_mode at the counterexample's data with
the current-tick mode `TILTBACK_DUTY`. -/
theorem C6_rate_limit_current_mode_witness :
    |calculate_setpoint_interpolated
        (get_setpoint_adjustment_step_size c6steps .TILTBACK_DUTY) 5 0 - 0|
      ≤ get_setpoint_adjustment_step_size c6steps .TILTBACK_DUTY :=
  C6_rate_limit_current_mode c6steps .TILTBACK_DUTY 5 0
    (by norm_num [get_setpoint_adjustment_step_size, c6steps])

/-- C4: the claim asserts the applied gains never exceed the configured caps
`kp ≤ min(conf.kp, 10)` etc. But the gain targets are the caps *times*
multipliers of up to 2 (kp) and 1.7 (ki), and the smoothing moves the
applied gains toward those targets. At `conf.kp = 6`, `tt_pid_intensity = 1`,
`torquetilt_interpolated = 6`, an applied `kp` already at the cap 6 rises to
`6·0.98 + 12·0.02 = 6.12 > 6` after one tick in a tiltback mode. -/
theorem C4_counterexample :
    (gain_update .TILTBACK_NONE (kp_acc_of 6) (ki_acc_of 0.005) (kd_acc_of 800) 1 6 0 1
        ⟨6, 0.005, 800⟩ 0).1.kp = 6.12 ∧
    ¬ ((gain_update .TILTBACK_NONE (kp_acc_of 6) (ki_acc_of 0.005) (kd_acc_of 800) 1 6 0 1
        ⟨6, 0.005, 800⟩ 0).1.kp ≤ kp_acc_of 6) := by
  norm_num [gain_update, p_multiplier, di_multiplier, kd_target_of,
    kp_acc_of, ki_acc_of, kd_acc_of, SetpointAdjustmentType.toNat]

/-- C4 (amended): the gain-scheduling caps hold with the multiplier ceilings
(and the ReverseStop override) folded in. With nonnegative configured caps
and `tt_pid_intensity ≥ 0` (which `app_balance_configure` clamps to
`[0, 1.5]`), one tick of the gain smoothing keeps
`kp ≤ max(kp_prev, max(2·kp_acc, 2))`, `ki ≤ max(ki_prev, 1.7·ki_acc)`, and
`kd ≤ max(kd_prev, max(kd_acc, 400))`, where `kp_acc = min(conf.kp, 10)`,
`ki_acc = min(conf.ki, 0.01)`, `kd_acc = min(conf.kd, 1500)`; hence these
bounds are invariants of the tick loop. -/
theorem C4_gain_bounds (mode : SetpointAdjustmentType)
    (kp_acc ki_acc kd_acc intensity tt abs_prop cba : ℚ) (g : Gains) (integral : ℚ)
    (hkp : 0 ≤ kp_acc) (hki : 0 ≤ ki_acc) (hkd : 0 ≤ kd_acc) (hint : 0 ≤ intensity) :
    (gain_update mode kp_acc ki_acc kd_acc intensity tt abs_prop cba g integral).1.kp
        ≤ max g.kp (max (2 * kp_acc) 2) ∧
    (gain_update mode kp_acc ki_acc kd_acc intensity tt abs_prop cba g integral).1.ki
        ≤ max g.ki (1.7 * ki_acc) ∧
    (gain_update mode kp_acc ki_acc kd_acc intensity tt abs_prop cba g integral).1.kd
        ≤ max g.kd (max kd_acc 400) := by
  have hp2 : p_multiplier tt intensity ≤ 2 := by
    unfold p_multiplier
    split_ifs
    · exact min_le_right _ _
    · norm_num
  have hdi2 : di_multiplier tt intensity ≤ 1.7 := by
    unfold di_multiplier
    split_ifs
    · exact min_le_right _ _
    · norm_num
  have hkpt : kp_acc * p_multiplier tt intensity ≤ 2 * kp_acc := by nlinarith
  have hkit : ki_acc * di_multiplier tt intensity ≤ 1.7 * ki_acc := by nlinarith
  have hkdt : kd_target_of kd_acc tt intensity abs_prop cba ≤ kd_acc := by
    unfold kd_target_of
    split_ifs
    · rw [div_le_iff₀ (by norm_num : (0:ℚ) < 1.7)]
      nlinarith
    · exact le_refl _
  have hM1a : g.kp ≤ max g.kp (max (2 * kp_acc) 2) := le_max_left _ _
  have hM1b : 2 * kp_acc ≤ max g.kp (max (2 * kp_acc) 2) :=
    le_trans (le_max_left _ _) (le_max_right _ _)
  have hM1c : (2:ℚ) ≤ max g.kp (max (2 * kp_acc) 2) :=
    le_trans (le_max_right _ _) (le_max_right _ _)
  have hM2a : g.ki ≤ max g.ki (1.7 * ki_acc) := le_max_left _ _
  have hM2b : 1.7 * ki_acc ≤ max g.ki (1.7 * ki_acc) := le_max_right _ _
  have hM2c : (0:ℚ) ≤ max g.ki (1.7 * ki_acc) := le_trans (by nlinarith) hM2b
  have hM3a : g.kd ≤ max g.kd (max kd_acc 400) := le_max_left _ _
  have hM3b : kd_acc ≤ max g.kd (max kd_acc 400) :=
    le_trans (le_max_left _ _) (le_max_right _ _)
  have hM3c : (400:ℚ) ≤ max g.kd (max kd_acc 400) :=
    le_trans (le_max_right _ _) (le_max_right _ _)
  simp only [gain_update]
  split_ifs with h1 h2 h3 h4 <;>
    refine ⟨?_, ?_, ?_⟩ <;> dsimp only <;> linarith

/-- Witness for C4_gain_bounds at the counterexample's inputs. -/
theorem C4_gain_bounds_witness :
    (gain_update .TILTBACK_NONE (kp_acc_of 6) (ki_acc_of 0.005) (kd_acc_of 800) 1 6 0 1
        ⟨6, 0.005, 800⟩ 0).1.kp ≤ max (6:ℚ) (max (2 * kp_acc_of 6) 2) := by
  have h := C4_gain_bounds .TILTBACK_NONE (kp_acc_of 6) (ki_acc_of 0.005) (kd_acc_of 800)
    1 6 0 1 ⟨6, 0.005, 800⟩ 0
    (by norm_num [kp_acc_of]) (by norm_num [ki_acc_of]) (by norm_num [kd_acc_of]) (by norm_num)
  exact h.1

/-- When none of the reverse-stop, half-switch, pitch, roll and duty
preconditions hold, the tail of `check_faults` returns no fault, passes the
state through, and re-arms exactly the four per-fault timers of the blocks
whose preconditions failed (the switch fault timer is untouched). -/
theorem check_faults_tail_clean (conf : FaultConf) (inp : FaultIn)
    (st : BalanceState) (t : FaultTimers)
    (hmode : inp.setpointAdjustmentType ≠ .REVERSESTOP)
    (hnothalf : ¬ (inp.abs_erpm < conf.fault_adc_half_erpm))
    (hpitch : ¬ (|inp.pitch_angle| > conf.fault_pitch))
    (hroll : ¬ (|inp.roll_angle| > conf.fault_roll))
    (hduty : ¬ (inp.abs_duty_cycle > conf.fault_duty)) :
    check_faults_reverse false conf inp st t =
      (false, st, { t with fault_switch_half_timer := inp.current_time,
                           fault_angle_pitch_timer := inp.current_time,
                           fault_angle_roll_timer := inp.current_time,
                           fault_duty_timer := inp.current_time }) := by
  unfold check_faults_reverse
  rw [if_neg hmode]
  unfold check_faults_half
  rw [if_neg (fun h => hnothalf h.2)]
  unfold check_faults_pitch
  rw [if_neg hpitch]
  unfold check_faults_roll
  rw [if_neg hroll]
  unfold check_faults_duty
  rw [if_neg hduty]

/-- One tick of the C7 scenario: switch Off at high speed with high-speed
switch faults disallowed, all other fault preconditions clear, and the
switch timer within the full-switch delay — `check_faults` reports no
fault, keeps the state, and re-arms the switch fault timer. -/
theorem check_faults_off_highspeed_step (conf : FaultConf) (inp : FaultIn)
    (st : BalanceState) (t : FaultTimers)
    (hsw : inp.switch_state = .OFF)
    (herpm : inp.abs_erpm = 5000)
    (hhalf : conf.fault_adc_half_erpm ≤ 1250)
    (hallow : inp.allow_high_speed_full_switch_faults = false)
    (hmode : inp.setpointAdjustmentType ≠ .REVERSESTOP)
    (hpitch : ¬ (|inp.pitch_angle| > conf.fault_pitch))
    (hroll : ¬ (|inp.roll_angle| > conf.fault_roll))
    (hduty : ¬ (inp.abs_duty_cycle > conf.fault_duty))
    (helapsed : inp.current_time - t.fault_switch_timer ≤ conf.fault_delay_switch_full) :
    check_faults false conf inp st t =
      (false, st, { t with fault_switch_timer := inp.current_time,
                           fault_switch_half_timer := inp.current_time,
                           fault_angle_pitch_timer := inp.current_time,
                           fault_angle_roll_timer := inp.current_time,
                           fault_duty_timer := inp.current_time }) := by
  have hnothalf : ¬ (inp.abs_erpm < conf.fault_adc_half_erpm) := by
    rw [herpm]; push_neg; linarith
  unfold check_faults
  rw [if_pos hsw]
  rw [if_neg (by simp; linarith :
    ¬ (inp.current_time - t.fault_switch_timer > conf.fault_delay_switch_full ∨ (false : Bool)))]
  rw [if_neg (by rw [herpm]; rintro ⟨h, _⟩; linarith :
    ¬ (inp.abs_erpm < conf.fault_adc_half_erpm * 4 ∧
       inp.current_time - t.fault_switch_timer > conf.fault_delay_switch_half))]
  rw [if_neg (fun h => hnothalf h.1)]
  rw [if_pos (by rw [herpm, hallow]; exact ⟨by norm_num, rfl⟩ :
    inp.abs_erpm > 3000 ∧ inp.allow_high_speed_full_switch_faults = false)]
  rw [check_faults_tail_clean conf inp st _ hmode hnothalf hpitch hroll hduty]

/-- `check_faults_duty` never writes the full-switch fault timer. -/
theorem fswt_pres_duty (ig : Bool) (conf : FaultConf) (inp : FaultIn)
    (st : BalanceState) (t : FaultTimers) :
    (check_faults_duty ig conf inp st t).2.2.fault_switch_timer = t.fault_switch_timer := by
  unfold check_faults_duty
  split_ifs <;> rfl

/-- `check_faults_roll` never writes the full-switch fault timer. -/
theorem fswt_pres_roll (ig : Bool) (conf : FaultConf) (inp : FaultIn)
    (st : BalanceState) (t : FaultTimers) :
    (check_faults_roll ig conf inp st t).2.2.fault_switch_timer = t.fault_switch_timer := by
  unfold check_faults_roll
  split_ifs <;> first | rfl | exact fswt_pres_duty ..

/-- `check_faults_pitch` never writes the full-switch fault timer. -/
theorem fswt_pres_pitch (ig : Bool) (conf : FaultConf) (inp : FaultIn)
    (st : BalanceState) (t : FaultTimers) :
    (check_faults_pitch ig conf inp st t).2.2.fault_switch_timer = t.fault_switch_timer := by
  unfold check_faults_pitch
  split_ifs <;> first | rfl | exact fswt_pres_roll ..

/-- `check_faults_half` never writes the full-switch fault timer. -/
theorem fswt_pres_half (ig : Bool) (conf : FaultConf) (inp : FaultIn)
    (st : BalanceState) (t : FaultTimers) :
    (check_faults_half ig conf inp st t).2.2.fault_switch_timer = t.fault_switch_timer := by
  unfold check_faults_half
  split_ifs <;> first | rfl | exact fswt_pres_pitch ..

/-- `check_faults_reverse` never writes the full-switch fault timer. -/
theorem fswt_pres_reverse (ig : Bool) (conf : FaultConf) (inp : FaultIn)
    (st : BalanceState) (t : FaultTimers) :
    (check_faults_reverse ig conf inp st t).2.2.fault_switch_timer = t.fault_switch_timer := by
  unfold check_faults_reverse
  split_ifs <;> first | rfl | exact fswt_pres_half ..

/-- C7: with high-speed switch faults disallowed, a switch going Off while
`abs_erpm` stays at 5000 never produces a fault — along the whole run
`check_faults` returns `false`, the state is unchanged and the full-switch
fault timer is re-armed to the current tick's time (first conjunct). With
the flag allowed, the timer is held while the switch is Off (third
conjunct), and once the Off condition has persisted beyond
`fault_delay_switch_full` the call faults with `FAULT_SWITCH_FULL` (second
conjunct). -/
theorem C7_high_speed_switch_fault_gating (conf : FaultConf) (inp : ℕ → FaultIn)
    (st0 : BalanceState) (t0 : FaultTimers)
    (hsw : ∀ n, (inp n).switch_state = .OFF)
    (herpm : ∀ n, (inp n).abs_erpm = 5000)
    (hhalf : conf.fault_adc_half_erpm ≤ 1250)
    (hallow : ∀ n, (inp n).allow_high_speed_full_switch_faults = false)
    (hmode : ∀ n, (inp n).setpointAdjustmentType ≠ .REVERSESTOP)
    (hpitch : ∀ n, ¬ (|(inp n).pitch_angle| > conf.fault_pitch))
    (hroll : ∀ n, ¬ (|(inp n).roll_angle| > conf.fault_roll))
    (hduty : ∀ n, ¬ ((inp n).abs_duty_cycle > conf.fault_duty))
    (hgap : ∀ n, (inp (n + 1)).current_time - (inp n).current_time ≤ conf.fault_delay_switch_full)
    (hinit : (inp 0).current_time - t0.fault_switch_timer ≤ conf.fault_delay_switch_full) :
    (∀ n, (check_faults_trace false conf inp st0 t0 (n + 1)).1 = false ∧
          (check_faults_trace false conf inp st0 t0 (n + 1)).2.1 = st0 ∧
          (check_faults_trace false conf inp st0 t0 (n + 1)).2.2.fault_switch_timer
            = (inp n).current_time) ∧
    (∀ (inp' : FaultIn) (st : BalanceState) (t : FaultTimers),
        inp'.switch_state = .OFF →
        inp'.current_time - t.fault_switch_timer > conf.fault_delay_switch_full →
        check_faults false conf inp' st t = (true, .FAULT_SWITCH_FULL, t)) ∧
    (∀ (inp' : FaultIn) (st : BalanceState) (t : FaultTimers),
        inp'.switch_state = .OFF →
        inp'.allow_high_speed_full_switch_faults = true →
        (check_faults false conf inp' st t).2.2.fault_switch_timer
          = t.fault_switch_timer) := by
  refine ⟨?_, ?_, ?_⟩
  · have key : ∀ n, check_faults_trace false conf inp st0 t0 (n + 1) =
        (false, st0,
          ⟨(inp n).current_time, (inp n).current_time, (inp n).current_time,
           (inp n).current_time, (inp n).current_time, t0.reverse_timer⟩) := by
      intro n
      induction n with
      | zero =>
        have h0 : check_faults_trace false conf inp st0 t0 1
            = check_faults false conf (inp 0) st0 t0 := rfl
        rw [h0, check_faults_off_highspeed_step conf (inp 0) st0 t0 (hsw 0) (herpm 0) hhalf
          (hallow 0) (hmode 0) (hpitch 0) (hroll 0) (hduty 0) hinit]
      | succ k ih =>
        have h0 : check_faults_trace false conf inp st0 t0 (k + 1 + 1)
            = check_faults false conf (inp (k + 1))
                (check_faults_trace false conf inp st0 t0 (k + 1)).2.1
                (check_faults_trace false conf inp st0 t0 (k + 1)).2.2 := rfl
        rw [h0, ih]
        dsimp only
        rw [check_faults_off_highspeed_step conf (inp (k + 1)) st0 _
          (hsw (k + 1)) (herpm (k + 1)) hhalf (hallow (k + 1)) (hmode (k + 1))
          (hpitch (k + 1)) (hroll (k + 1)) (hduty (k + 1)) (hgap k)]
    intro n
    rw [key n]
    exact ⟨rfl, rfl, rfl⟩
  · intro inp' st t hsw' helapsed
    unfold check_faults
    rw [if_pos hsw', if_pos (Or.inl helapsed)]
  · intro inp' st t hsw' hallow'
    unfold check_faults
    rw [if_pos hsw']
    split_ifs
    all_goals first
      | rfl
      | exact fswt_pres_reverse ..
      | simp_all

/-- Witness for C7: the concrete scenario `confA`/`c7inp` (switch Off, erpm
5000, flag disallowed, 100 ms ticks against a 200 ms full-switch delay)
produces no fault on its first tick. -/
theorem C7_high_speed_switch_fault_gating_witness :
    (check_faults_trace false confA c7inp .RUNNING timersA 1).1 = false ∧
    (check_faults_trace false confA c7inp .RUNNING timersA 1).2.1 = .RUNNING := by
  have h := C7_high_speed_switch_fault_gating confA c7inp .RUNNING timersA
    (fun n => rfl) (fun n => rfl) (by norm_num [confA]) (fun n => rfl)
    (fun n => by simp [c7inp]) (fun n => by norm_num [c7inp, confA])
    (fun n => by norm_num [c7inp, confA]) (fun n => by norm_num [c7inp, confA])
    (fun n => by simp only [c7inp, confA]; push_cast; ring_nf; norm_num)
    (by norm_num [c7inp, confA, timersA])
  exact ⟨(h.1 0).1, (h.1 0).2.1⟩


/-- C9: the division `yaw_change * 100 / roll_angle` in the cutback detector
is reached only under the short-circuit guard, whose second conjunct tests
the roll aggregate produced *this* tick; since that aggregate was reset to 0
earlier in the same tick whenever `|roll_angle| ≤ 8`, and the threshold is
`5000 > 0`, reaching the division forces `|roll_angle| > 8` and in
particular a nonzero divisor. -/
theorem C9_cutback_division_safe (yaw_change roll_angle roll_aggregate abs_yaw_scaled : ℚ)
    (h : cutback_division_guard yaw_change roll_angle
        (roll_aggregate_update roll_aggregate roll_angle) abs_yaw_scaled) :
    |roll_angle| > 8 ∧ roll_angle ≠ 0 := by
  obtain ⟨-, hagg, -⟩ := h
  have hr : |roll_angle| > 8 := by
    by_contra hr
    rw [roll_aggregate_update, if_neg hr] at hagg
    norm_num [roll_aggregate_threshold] at hagg
  refine ⟨hr, fun h0 => ?_⟩
  rw [h0] at hr
  norm_num at hr

/-- Witness for C9 at a concrete banked-turn tick: `roll = 10`,
`roll_aggregate = 5000` entering the tick, `yaw_change = 0.1`. -/
theorem C9_cutback_division_safe_witness :
    cutback_division_guard (1/10) 10 (roll_aggregate_update 5000 10) 10 ∧ (10 : ℚ) ≠ 0 := by
  have hg : cutback_division_guard (1/10) 10 (roll_aggregate_update 5000 10) 10 := by
    norm_num [cutback_division_guard, roll_aggregate_update, roll_aggregate_threshold, SIGN]
  exact ⟨hg, (C9_cutback_division_safe (1/10) 10 5000 10 hg).2⟩

/-- Overwriting entry `i` of a list changes its sum by the difference of the
new and old entries. -/
theorem list_sum_set (l : List ℚ) (i : ℕ) (x : ℚ) (h : i < l.length) :
    (l.set i x).sum = l.sum - l.getD i 0 + x := by
  induction l generalizing i with
  | nil => simp at h
  | cons a l ih =>
    cases i with
    | zero =>
      simp only [List.set_cons_zero, List.sum_cons, List.getD_cons_zero]
      ring
    | succ i =>
      simp only [List.set_cons_succ, List.sum_cons, List.getD_cons_succ]
      rw [ih i (by simpa using h)]
      ring

/-- The ring-buffer invariant of the acceleration moving average: after any
sample list, the buffer has 40 entries, the index is the sample count mod 40,
slot `j` holds the padded-stream entry written there last, the buffer sums to
the last-40 window of the padded stream, and `accelavg` is the buffer sum
over 40. -/
theorem accel_run_inv (xs : List ℚ) :
    (accel_run xs).accelhist.length = 40 ∧
    (accel_run xs).accelidx = xs.length % 40 ∧
    (∀ j, j < 40 → (accel_run xs).accelhist.getD j 0
        = (padded xs).getD (39 + xs.length - ((xs.length + 39 - j) % 40)) 0) ∧
    (accel_run xs).accelhist.sum = ((padded xs).drop xs.length).sum ∧
    (accel_run xs).accelavg = (accel_run xs).accelhist.sum / 40 := by
  induction xs using List.reverseRecOn with
  | nil =>
    refine ⟨by simp [accel_run, accel_reset], by simp [accel_run, accel_reset], ?_,
      by simp [accel_run, accel_reset, padded], by simp [accel_run, accel_reset]⟩
    intro j hj
    have hL : (accel_run ([] : List ℚ)).accelhist.getD j 0 = 0 := by
      rw [show (accel_run ([] : List ℚ)).accelhist = List.replicate 40 (0:ℚ) from rfl]
      rw [List.getD_eq_getElem?_getD, List.getElem?_replicate]
      split <;> rfl
    have hR : (padded []).getD (39 + ([] : List ℚ).length - ((([] : List ℚ).length + 39 - j) % 40)) 0 = 0 := by
      simp only [padded, List.append_nil]
      rw [List.getD_eq_getElem?_getD, List.getElem?_replicate]
      split <;> rfl
    rw [hL]
    exact hR.symm
  | append_singleton xs x ih =>
    obtain ⟨hlen, hidx, hslots, hsum, havg⟩ := ih
    have hstep : accel_run (xs ++ [x]) = accel_tick (accel_run xs) x := by
      simp [accel_run, List.foldl_append]
    set s := accel_run xs with hs
    set n := xs.length with hn
    have hidxlt : s.accelidx < 40 := by rw [hidx]; omega
    have hidxlen : s.accelidx < s.accelhist.length := by rw [hlen]; exact hidxlt
    have hold : s.accelhist.getD s.accelidx 0 = (padded xs).getD n 0 := by
      rw [hslots s.accelidx hidxlt, hidx]
      congr 1
      omega
    have hplen : (padded xs).length = 40 + n := by
      simp only [padded, List.length_append, List.length_replicate]
    have hnlt : n < (padded xs).length := by omega
    have hpad : padded (xs ++ [x]) = padded xs ++ [x] := by simp [padded]
    have hlenapp : (xs ++ [x]).length = n + 1 := by simp
    refine ⟨?_, ?_, ?_, ?_, ?_⟩
    · rw [hstep]
      simp [accel_tick, hlen]
    · rw [hstep]
      simp only [accel_tick]
      rw [hidx, hlenapp]
      split_ifs with h
      · omega
      · omega
    · intro j hj
      rw [hstep]
      simp only [accel_tick]
      rw [hlenapp, hpad]
      by_cases hjidx : j = s.accelidx
      · subst hjidx
        have hL : (s.accelhist.set s.accelidx x).getD s.accelidx 0 = x := by
          rw [List.getD_eq_getElem?_getD]
          simp [List.getElem?_set_self, hidxlen]
        have he : 39 + (n + 1) - ((n + 1 + 39 - s.accelidx) % 40) = 40 + n := by
          rw [hidx]
          omega
        rw [hL, he, List.getD_eq_getElem?_getD]
        have hcat : (padded xs ++ [x])[40 + n]? = some x := by
          rw [← hplen]
          simp
        rw [hcat]
        rfl
      · have hL : (s.accelhist.set s.accelidx x).getD j 0 = s.accelhist.getD j 0 := by
          rw [List.getD_eq_getElem?_getD, List.getElem?_set_ne (fun h => hjidx h.symm),
            ← List.getD_eq_getElem?_getD]
        have hne : j ≠ n % 40 := by
          rw [← hidx]
          exact hjidx
        have he : 39 + (n + 1) - ((n + 1 + 39 - j) % 40) = 39 + n - ((n + 39 - j) % 40) := by
          omega
        have hlt : 39 + n - ((n + 39 - j) % 40) < (padded xs).length := by
          rw [hplen]
          omega
        rw [hL, hslots j hj, he, List.getD_eq_getElem?_getD, List.getD_eq_getElem?_getD,
          List.getElem?_append_left hlt]
    · rw [hstep]
      simp only [accel_tick]
      rw [list_sum_set _ _ _ hidxlen, hsum, hold, hlenapp, hpad]
      rw [List.drop_append_of_le_length (by omega)]
      have hcons : (padded xs).drop n = (padded xs)[n] :: (padded xs).drop (n + 1) :=
        List.drop_eq_getElem_cons hnlt
      have hgd : (padded xs).getD n 0 = (padded xs)[n] := by
        rw [List.getD_eq_getElem?_getD, List.getElem?_eq_getElem hnlt]
        rfl
      rw [hcons, hgd]
      simp only [List.sum_cons, List.sum_append, List.sum_nil]
      ring
    · rw [hstep]
      simp only [accel_tick]
      rw [havg, list_sum_set _ _ _ hidxlen]
      ring

/-- C8: starting from the zeroed 40-entry ring of `reset_vars`, after any
sequence of `acceleration_raw` samples (in exact arithmetic) `accelavg`
equals the arithmetic mean of the last 40 samples, missing samples counting
as 0: the sum of the final 40 entries of the zero-padded sample stream,
divided by 40. The incremental maintenance (`avg += (new - old)/40` with the
ring write) is the definition of `accel_tick`. -/
theorem C8_accelavg_window_mean (xs : List ℚ) :
    (accel_run xs).accelavg = ((padded xs).drop xs.length).sum / 40 := by
  have h := accel_run_inv xs
  rw [h.2.2.2.2, h.2.2.2.1]
